import Mathlib

/-!
Shallow embedding of `sdk/python/kfp/local/dag_orchestrator.py`: the local
DAG orchestrator of Kubeflow Pipelines.  Pure Python functions become Lean
functions; the `IOStore` object is threaded explicitly; raised exceptions
become `Except DagError`.  External collaborators that live outside this
file in the Python code base (the value store `kfp.local.io.IOStore`, the
graph-ordering helper `graph_utils.topological_sort_tasks`, the task runner
`task_dispatcher._run_single_task_implementation`, the literal converter
`executor_output_utils.pb2_value_to_python` and the `status.Status` enum)
are modelled from the specification's collaborator contracts.
-/

namespace KFPLocal

/-- Native Python runtime values, as produced by literal decoding, passed as
task arguments and stored in the value store.  The orchestrator treats them
opaquely, so a small closed universe suffices. -/
inductive Value where
  | vNull : Value
  | vBool : Bool → Value
  | vInt : Int → Value
  | vStr : String → Value
  | vArtifact : String → Value
deriving DecidableEq, Repr

/-- Protobuf literal values (`google.protobuf.Value`) as they appear in a
compiled pipeline specification, before conversion to native values. -/
inductive PbValue where
  | pbNull : PbValue
  | pbBool : Bool → PbValue
  | pbInt : Int → PbValue
  | pbStr : String → PbValue
deriving DecidableEq, Repr

/-- Modelled from the spec: the external literal-conversion collaborator
`executor_output_utils.pb2_value_to_python` ("converting a specification's
literal-value representation into a native runtime value", spec section 1);
its source is not part of this repository slice. -/
def pb2_value_to_python : PbValue → Value
  | .pbNull => .vNull
  | .pbBool b => .vBool b
  | .pbInt n => .vInt n
  | .pbStr s => .vStr s

/-- Modelled from the spec: the external `status.Status` enum; spec section 3
says "Status: one of SUCCESS, FAILURE".  Because the enum has exactly these
two members, the source's defensive `else: raise ValueError(unknown task
status)` branch in `run_dag` is unreachable and has no counterpart here. -/
inductive Status where
  | SUCCESS : Status
  | FAILURE : Status
deriving DecidableEq, Repr

/-- Exceptions raised by `dag_orchestrator.py`, one constructor per raise
site (plus `keyError` for Python dict subscript misses):
* `unsupportedFeature f`: the `NotImplementedError` raises, with `f` one of
  "nested_dag", "importer", "task_final_status", "one_of";
* `invalidComponentSpec`: `ValueError` for an unknown component
  implementation kind;
* `invalidExecutorSpec`: `ValueError` for an unknown executor spec kind;
* `expectedConstant`: `ValueError('Expected constant.')`;
* `missingInputSource kind name`: `ValueError(f'Missing input for
  \x7bkind\x7d \x7bname\x7d.')`;
* `unknownParameterSelectorKind`: `ValueError` for an unknown
  `parameter_selector_spec` kind;
* `invalidOutputSpec n`: `ValueError` for an artifact selector count other
  than one;
* `missingUpstreamOutput` / `missingParentInput`: misses in the value-store
  collaborator (spec section 6 contract);
* `keyError k`: a Python `KeyError` on `executors[...]`, `components[...]`
  or `dag_spec.tasks[...]`. -/
inductive DagError where
  | unsupportedFeature : String → DagError
  | invalidComponentSpec : DagError
  | invalidExecutorSpec : DagError
  | expectedConstant : DagError
  | missingInputSource : String → String → DagError
  | unknownParameterSelectorKind : DagError
  | invalidOutputSpec : Nat → DagError
  | missingUpstreamOutput : String → String → DagError
  | missingParentInput : String → DagError
  | keyError : String → DagError
deriving DecidableEq, Repr

/-- Association-list lookup with decidable key equality: the first binding
of the key wins.  This is the reading discipline for all Python dicts in
the embedding (writes shadow by replacing or prepending). -/
def alookup {κ α : Type} [DecidableEq κ] : List (κ × α) → κ → Option α
  | [], _ => none
  | p :: rest, k => if p.1 = k then some p.2 else alookup rest k

/-- Python dict assignment `d[k] = v` on an association list: if `k` is
already bound, its binding is replaced in place; otherwise `(k, v)` is
appended (Python dicts preserve insertion order). -/
def dictInsert {κ α : Type} [DecidableEq κ] (d : List (κ × α)) (k : κ) (v : α) :
    List (κ × α) :=
  if d.any (fun p => p.1 = k) then
    d.map (fun p => if p.1 = k then (k, v) else p)
  else d ++ [(k, v)]

/-- Python dict-union `\x7b**d1, **d2\x7d`: start from `d1` and insert every
binding of `d2` in order, so `d2` wins on key collisions. -/
def dictUnion {κ α : Type} [DecidableEq κ] (d1 d2 : List (κ × α)) :
    List (κ × α) :=
  d2.foldl (fun acc p => dictInsert acc p.1 p.2) d1

/-- Modelled from the spec: the external value-store collaborator
`kfp.local.io.IOStore` (spec section 6: `putParentInput`, `getParentInput`,
`putTaskOutput`, `getTaskOutput`).  Parent inputs are keyed by input name,
task outputs by `(producerTaskName, outputKey)`; writes prepend so a later
write shadows an earlier one on lookup. -/
structure IOStore where
  parent_inputs : List (String × Value)
  task_outputs : List ((String × String) × Value)
deriving DecidableEq, Repr

def IOStore.put_parent_input (st : IOStore) (name : String) (v : Value) :
    IOStore :=
  { st with parent_inputs := (name, v) :: st.parent_inputs }

def IOStore.get_parent_input (st : IOStore) (name : String) :
    Except DagError Value :=
  match alookup st.parent_inputs name with
  | some v => .ok v
  | none => .error (.missingParentInput name)

def IOStore.put_task_output (st : IOStore) (task_name key : String) (v : Value) :
    IOStore :=
  { st with task_outputs := ((task_name, key), v) :: st.task_outputs }

def IOStore.get_task_output (st : IOStore) (task_name key : String) :
    Except DagError Value :=
  match alookup st.task_outputs (task_name, key) with
  | some v => .ok v
  | none => .error (.missingUpstreamOutput task_name key)

/-- The `value` oneof of `ValueOrRuntimeParameter` (pipeline_spec proto), as
distinguished by `WhichOneof('value')` in `make_task_arguments`: only the
`constant` arm is accepted. -/
inductive RuntimeValueSpec where
  | constant : PbValue → RuntimeValueSpec
  | runtime_parameter : String → RuntimeValueSpec
  | unset : RuntimeValueSpec
deriving DecidableEq, Repr

/-- The `kind` oneof of `TaskInputsSpec.InputParameterSpec`, as probed by the
`HasField` chain in `make_task_arguments`; `unset` is the state in which none
of the oneof fields is set. -/
inductive InputParameterSpec where
  | runtime_value : RuntimeValueSpec → InputParameterSpec
  | task_output_parameter : (producer_task : String) →
      (output_parameter_key : String) → InputParameterSpec
  | component_input_parameter : String → InputParameterSpec
  | task_final_status : InputParameterSpec
  | unset : InputParameterSpec
deriving DecidableEq, Repr

/-- The `kind` oneof of `TaskInputsSpec.InputArtifactSpec`. -/
inductive InputArtifactSpec where
  | task_output_artifact : (producer_task : String) →
      (output_artifact_key : String) → InputArtifactSpec
  | component_input_artifact : String → InputArtifactSpec
  | unset : InputArtifactSpec
deriving DecidableEq, Repr

/-- `TaskInputsSpec`: the per-task input descriptors, a map of parameter
inputs and a map of artifact inputs (protobuf maps embedded as association
lists in iteration order). -/
structure TaskInputsSpec where
  parameters : List (String × InputParameterSpec)
  artifacts : List (String × InputArtifactSpec)
deriving DecidableEq, Repr

/-- One declared DAG parameter input (`ComponentInputsSpec.ParameterSpec`):
only its `default_value` is consulted by the orchestrator (an absent proto
default reads as the default `Value`, i.e. `pbNull`). -/
structure ComponentInputParameterSpec where
  default_value : PbValue
deriving DecidableEq, Repr

/-- `ComponentInputsSpec`: the DAG's declared parameter inputs.  (Declared
artifact inputs exist in the proto but are never consulted by
`dag_orchestrator.py`, so they are omitted.) -/
structure ComponentInputsSpec where
  parameters : List (String × ComponentInputParameterSpec)
deriving DecidableEq, Repr

/-- The `kind` oneof of `DagOutputsSpec.ParameterSelectorSpec`, as probed by
`WhichOneof('kind')` in `get_dag_output_parameters`. -/
inductive ParameterSelectorSpec where
  | value_from_parameter : (producer_subtask : String) →
      (output_parameter_key : String) → ParameterSelectorSpec
  | value_from_oneof : ParameterSelectorSpec
  | unset : ParameterSelectorSpec
deriving DecidableEq, Repr

/-- One artifact selector (`DagOutputsSpec.ArtifactSelectorSpec` entry). -/
structure ArtifactSelector where
  producer_subtask : String
  output_artifact_key : String
deriving DecidableEq, Repr

/-- `DagOutputsSpec.ArtifactSelectorSpec`: a repeated field of selectors. -/
structure ArtifactSelectorSpec where
  artifact_selectors : List ArtifactSelector
deriving DecidableEq, Repr

/-- `DagOutputsSpec`: the DAG's declared outputs. -/
structure DagOutputsSpec where
  parameters : List (String × ParameterSelectorSpec)
  artifacts : List (String × ArtifactSelectorSpec)
deriving DecidableEq, Repr

/-- `PipelineTaskSpec`, restricted to the fields `run_dag` reads: the name of
the referenced component (`component_ref.name`) and the task's inputs. -/
structure PipelineTaskSpec where
  component_ref : String
  inputs : TaskInputsSpec
deriving DecidableEq, Repr

/-- `DagSpec`: the task map and the declared outputs. -/
structure DagSpec where
  tasks : List (String × PipelineTaskSpec)
  outputs : DagOutputsSpec
deriving DecidableEq, Repr

/-- The `implementation` oneof of `ComponentSpec`, as probed by
`WhichOneof('implementation')` in `run_dag`. -/
inductive Implementation where
  | dag : DagSpec → Implementation
  | executor_label : String → Implementation
  | unset : Implementation
deriving DecidableEq, Repr

/-- `ComponentSpec`, restricted to the fields `run_dag` reads. -/
structure ComponentSpec where
  input_definitions : ComponentInputsSpec
  implementation : Implementation
deriving DecidableEq, Repr

/-- Protobuf field access `component_spec.dag`: yields the contained
`DagSpec` when the `dag` arm of the oneof is set and the default (empty)
`DagSpec` otherwise, exactly as protobuf submessage access does. -/
def ComponentSpec.dag (c : ComponentSpec) : DagSpec :=
  match c.implementation with
  | .dag d => d
  | _ => ⟨[], ⟨[], []⟩⟩

/-- The `spec` oneof of `PipelineDeploymentConfig.ExecutorSpec`, as probed by
`WhichOneof('spec')` in `validate_executor`; `other` covers any further set
arm and `unset` the absent oneof (`WhichOneof` returning `None`). -/
inductive ExecutorSpec where
  | container : ExecutorSpec
  | importer : ExecutorSpec
  | other : String → ExecutorSpec
  | unset : ExecutorSpec
deriving DecidableEq, Repr

/-- `join_user_inputs_and_defaults`: deep-copy the user-provided arguments
(the embedding is pure, so the copy is implicit and the caller's map is
untouched by construction) and, for each declared parameter input whose name
is absent, insert its declared default converted to a native value. -/
def join_user_inputs_and_defaults (dag_arguments : List (String × Value))
    (dag_inputs_spec : ComponentInputsSpec) : List (String × Value) :=
  dag_inputs_spec.parameters.foldl
    (fun copied p =>
      if (alookup copied p.1).isSome then copied
      else dictInsert copied p.1 (pb2_value_to_python p.2.default_value))
    dag_arguments

/-- The parameter branch body of `make_task_arguments`: resolve one declared
parameter input against the store, following the source's `HasField` chain
(`runtime_value`, `task_output_parameter`, `component_input_parameter`,
`task_final_status`, else `Missing input`). -/
def resolve_parameter_input (io_store : IOStore) (input_name : String) :
    InputParameterSpec → Except DagError Value
  | .runtime_value rv =>
    match rv with
    | .constant c => .ok (pb2_value_to_python c)
    | _ => .error .expectedConstant
  | .task_output_parameter producer_task output_parameter_key =>
    io_store.get_task_output producer_task output_parameter_key
  | .component_input_parameter name => io_store.get_parent_input name
  | .task_final_status => .error (.unsupportedFeature "task_final_status")
  | .unset => .error (.missingInputSource "parameter" input_name)

/-- The artifact branch body of `make_task_arguments`: resolve one declared
artifact input against the store. -/
def resolve_artifact_input (io_store : IOStore) (input_name : String) :
    InputArtifactSpec → Except DagError Value
  | .task_output_artifact producer_task output_artifact_key =>
    io_store.get_task_output producer_task output_artifact_key
  | .component_input_artifact name => io_store.get_parent_input name
  | .unset => .error (.missingInputSource "artifact" input_name)

/-- The parameter loop of `make_task_arguments`, accumulating the
`task_arguments` dict. -/
def fold_parameter_inputs (io_store : IOStore)
    (params : List (String × InputParameterSpec))
    (acc : List (String × Value)) : Except DagError (List (String × Value)) :=
  params.foldlM
    (fun acc p => do
      let v ← resolve_parameter_input io_store p.1 p.2
      pure (dictInsert acc p.1 v))
    acc

/-- The artifact loop of `make_task_arguments`. -/
def fold_artifact_inputs (io_store : IOStore)
    (artifacts : List (String × InputArtifactSpec))
    (acc : List (String × Value)) : Except DagError (List (String × Value)) :=
  artifacts.foldlM
    (fun acc p => do
      let v ← resolve_artifact_input io_store p.1 p.2
      pure (dictInsert acc p.1 v))
    acc

/-- `make_task_arguments`: build the task's argument dict, parameters first
and artifacts second, resolving each input by its source tag. -/
def make_task_arguments (task_inputs_spec : TaskInputsSpec)
    (io_store : IOStore) : Except DagError (List (String × Value)) := do
  let task_arguments ← fold_parameter_inputs io_store
    task_inputs_spec.parameters []
  fold_artifact_inputs io_store task_inputs_spec.artifacts task_arguments

/-- `validate_executor`: importer executors are unsupported, container
executors pass, anything else (including an unset oneof) is invalid. -/
def validate_executor : ExecutorSpec → Except DagError Unit
  | .importer => .error (.unsupportedFeature "importer")
  | .container => .ok ()
  | _ => .error .invalidExecutorSpec

/-- The loop body accumulator of `get_dag_output_parameters`. -/
def fold_output_parameters (io_store : IOStore)
    (params : List (String × ParameterSelectorSpec))
    (acc : List (String × Value)) : Except DagError (List (String × Value)) :=
  params.foldlM
    (fun outputs p =>
      match p.2 with
      | .value_from_parameter producer_subtask output_parameter_key => do
        let v ← io_store.get_task_output producer_subtask output_parameter_key
        pure (dictInsert outputs p.1 v)
      | .value_from_oneof => .error (.unsupportedFeature "one_of")
      | .unset => .error .unknownParameterSelectorKind)
    acc

/-- `get_dag_output_parameters`: resolve every declared DAG parameter output
from the store; `value_from_oneof` selectors are unsupported and an unset
selector kind is an error. -/
def get_dag_output_parameters (dag_outputs_spec : DagOutputsSpec)
    (io_store : IOStore) : Except DagError (List (String × Value)) :=
  fold_output_parameters io_store dag_outputs_spec.parameters []

/-- The loop body accumulator of `get_dag_output_artifacts`. -/
def fold_output_artifacts (io_store : IOStore)
    (artifacts : List (String × ArtifactSelectorSpec))
    (acc : List (String × Value)) : Except DagError (List (String × Value)) :=
  artifacts.foldlM
    (fun outputs p =>
      match p.2.artifact_selectors with
      | [sel] => do
        let v ← io_store.get_task_output sel.producer_subtask
          sel.output_artifact_key
        pure (dictInsert outputs p.1 v)
      | sels => .error (.invalidOutputSpec sels.length))
    acc

/-- `get_dag_output_artifacts`: every declared DAG artifact output must have
exactly one artifact selector (any other count raises, reporting the count)
and is then resolved from the store like a parameter output. -/
def get_dag_output_artifacts (dag_outputs_spec : DagOutputsSpec)
    (io_store : IOStore) : Except DagError (List (String × Value)) :=
  fold_output_artifacts io_store dag_outputs_spec.artifacts []

/-- `get_dag_outputs`: the Python dict-union `\x7b**output_params,
**output_artifacts\x7d` of the two resolved maps, artifacts second so an
artifact wins any key collision. -/
def get_dag_outputs (dag_outputs_spec : DagOutputsSpec) (io_store : IOStore) :
    Except DagError (List (String × Value)) := do
  let output_params ← get_dag_output_parameters dag_outputs_spec io_store
  let output_artifacts ← get_dag_output_artifacts dag_outputs_spec io_store
  pure (dictUnion output_params output_artifacts)

/-- Modelled from the spec: the external task-runner collaborator
`task_dispatcher._run_single_task_implementation` (spec section 6:
`run(component, executor, arguments, ...) -> (outputs, status)`).  The
configuration the source forwards unchanged to every call (pipeline resource
name, pipeline root, runner choice, unique pipeline id and the two constant
flags `raise_on_error=False`, `block_input_artifact=False`) is absorbed into
the function value; what varies per dispatch is the component name and the
resolved arguments. -/
def TaskRunner : Type :=
  String → List (String × Value) → List (String × Value) × Status

/-- Python dict subscript `d[k]`: `KeyError` when the key is absent. -/
def lookupE {α : Type} (d : List (String × α)) (k : String) :
    Except DagError α :=
  match alookup d k with
  | some v => .ok v
  | none => .error (.keyError k)

/-- One iteration body of the `while sorted_tasks` loop in `run_dag`, up to
and including the dispatch to the task runner: look up the task spec and its
component, reject nested DAGs and unknown implementations, validate the
executor, resolve the arguments and dispatch.  Returns the runner's
`(outputs, task_status)` pair. -/
def run_one_task (executors : List (String × ExecutorSpec))
    (components : List (String × ComponentSpec)) (dag_spec : DagSpec)
    (runner : TaskRunner) (task_name : String) (io_store : IOStore) :
    Except DagError (List (String × Value) × Status) := do
  let task_spec ← lookupE dag_spec.tasks task_name
  let component_spec ← lookupE components task_spec.component_ref
  match component_spec.implementation with
  | .dag _ => .error (.unsupportedFeature "nested_dag")
  | .unset => .error .invalidComponentSpec
  | .executor_label label => do
    let executor_spec ← lookupE executors label
    validate_executor executor_spec
    let task_arguments ← make_task_arguments task_spec.inputs io_store
    pure (runner task_spec.component_ref task_arguments)

/-- The `SUCCESS` branch of the loop: write every returned
`(outputKey, value)` pair into the store keyed by `(taskName, outputKey)`. -/
def write_task_outputs (io_store : IOStore) (task_name : String)
    (outputs : List (String × Value)) : IOStore :=
  outputs.foldl (fun st p => st.put_task_output task_name p.1 p.2) io_store

/-- The observable outcome of a `run_dag` call: the Python return value
`(Status, Optional[str])`, the final state of the mutated `IOStore`, and the
sequence of task names dispatched to the runner, in dispatch order (the
run's externally visible interaction with the runner collaborator). -/
structure RunOutcome where
  result : Status × Option String
  io_store : IOStore
  dispatched : List String
deriving DecidableEq, Repr

/-- The `while sorted_tasks: task_name = sorted_tasks.pop()` loop of
`run_dag`, with the iteration already unfolded: Python's `list.pop()` takes
the LAST element, so `run_dag` below passes the reversed stack and this loop
consumes it front to back.  On a runner `FAILURE` the loop returns
`(FAILURE, task_name)` at once with the store untouched by that task; on
`SUCCESS` the outputs are written and the loop continues. -/
def run_tasks (executors : List (String × ExecutorSpec))
    (components : List (String × ComponentSpec)) (dag_spec : DagSpec)
    (runner : TaskRunner) :
    List String → IOStore → List String → Except DagError RunOutcome
  | [], io_store, dispatched => .ok ⟨(.SUCCESS, none), io_store, dispatched⟩
  | task_name :: rest, io_store, dispatched =>
    match run_one_task executors components dag_spec runner task_name
        io_store with
    | .error e => .error e
    | .ok (outputs, task_status) =>
      match task_status with
      | .FAILURE =>
        .ok ⟨(.FAILURE, some task_name), io_store, dispatched ++ [task_name]⟩
      | .SUCCESS =>
        run_tasks executors components dag_spec runner rest
          (write_task_outputs io_store task_name outputs)
          (dispatched ++ [task_name])

/-- The store-seeding prelude of `run_dag`: merge user arguments with
declared defaults and `put_parent_input` every resulting binding. -/
def dag_initial_store (dag_component_spec : ComponentSpec)
    (dag_arguments : List (String × Value)) (io_store : IOStore) : IOStore :=
  (join_user_inputs_and_defaults dag_arguments
      dag_component_spec.input_definitions).foldl
    (fun st p => st.put_parent_input p.1 p.2) io_store

/-- `run_dag`: seed the store with defaulted parent inputs, obtain the task
stack from the external graph-ordering collaborator
(`topological_sort_tasks`, passed as a parameter because its source is not
part of this repository slice; spec section 6 contract), and run the loop.
The loop pops from the END of the returned list (`sorted_tasks.pop()`),
hence the `.reverse`. -/
def run_dag (dag_component_spec : ComponentSpec)
    (executors : List (String × ExecutorSpec))
    (components : List (String × ComponentSpec))
    (dag_arguments : List (String × Value)) (io_store : IOStore)
    (runner : TaskRunner)
    (topological_sort_tasks : List (String × PipelineTaskSpec) → List String) :
    Except DagError RunOutcome :=
  let store := dag_initial_store dag_component_spec dag_arguments io_store
  let dag_spec := dag_component_spec.dag
  let sorted_tasks := topological_sort_tasks dag_spec.tasks
  run_tasks executors components dag_spec runner sorted_tasks.reverse store []

/-! ### Association-list and dict lemmas -/

theorem alookup_append {κ α : Type} [DecidableEq κ] (d1 d2 : List (κ × α))
    (k : κ) :
    alookup (d1 ++ d2) k =
      match alookup d1 k with
      | some v => some v
      | none => alookup d2 k := by
  induction d1 with
  | nil => simp [alookup]
  | cons p rest ih =>
    by_cases h : p.1 = k <;> simp [alookup, h, ih]

theorem alookup_eq_none_of_not_mem {κ α : Type} [DecidableEq κ]
    {d : List (κ × α)} {k : κ} (h : k ∉ d.map Prod.fst) :
    alookup d k = none := by
  induction d with
  | nil => rfl
  | cons p rest ih =>
    simp only [List.map_cons, List.mem_cons, not_or] at h
    have hp : ¬p.1 = k := fun hx => h.1 hx.symm
    simp [alookup, hp, ih h.2]

theorem any_key_eq_false_of_alookup_none {κ α : Type} [DecidableEq κ]
    {d : List (κ × α)} {k : κ} (h : alookup d k = none) :
    d.any (fun p => p.1 = k) = false := by
  induction d with
  | nil => rfl
  | cons p rest ih =>
    by_cases hp : p.1 = k
    · simp [alookup, hp] at h
    · simp [alookup, hp] at h
      simp [List.any_cons, hp, ih h]

theorem dictInsert_of_alookup_none {κ α : Type} [DecidableEq κ]
    {d : List (κ × α)} {k : κ} (v : α) (h : alookup d k = none) :
    dictInsert d k v = d ++ [(k, v)] := by
  simp [dictInsert, any_key_eq_false_of_alookup_none h]

theorem alookup_none_of_any_false {κ α : Type} [DecidableEq κ]
    {d : List (κ × α)} {k : κ} (h : d.any (fun p => p.1 = k) = false) :
    alookup d k = none := by
  induction d with
  | nil => rfl
  | cons p rest ih =>
    simp only [List.any_cons, Bool.or_eq_false_iff, decide_eq_false_iff_not]
      at h
    simp [alookup, h.1, ih h.2]

theorem alookup_map_replace_self {κ α : Type} [DecidableEq κ]
    {d : List (κ × α)} {k : κ} (v : α)
    (h : d.any (fun p => p.1 = k) = true) :
    alookup (d.map (fun p => if p.1 = k then (k, v) else p)) k = some v := by
  induction d with
  | nil => simp at h
  | cons p rest ih =>
    by_cases hp : p.1 = k
    · simp [alookup, hp]
    · simp only [List.any_cons, Bool.or_eq_true, decide_eq_true_eq] at h
      rcases h with h | h
      · exact absurd h hp
      · simp [alookup, hp, ih h]

theorem alookup_map_replace_ne {κ α : Type} [DecidableEq κ]
    (d : List (κ × α)) (k k' : κ) (v : α) (h : k' ≠ k) :
    alookup (d.map (fun p => if p.1 = k then (k, v) else p)) k' =
      alookup d k' := by
  induction d with
  | nil => rfl
  | cons p rest ih =>
    simp only [List.map_cons]
    by_cases hp : p.1 = k
    · have hk : (k : κ) ≠ k' := fun hk => h hk.symm
      have hp' : p.1 ≠ k' := by
        rw [hp]; exact hk
      rw [if_pos hp]
      show (if (k, v).1 = k' then some (k, v).2 else _) = _
      simp only [alookup]
      rw [if_neg hk, if_neg hp']
      exact ih
    · rw [if_neg hp]
      by_cases hp' : p.1 = k'
      · simp only [alookup]
        rw [if_pos hp', if_pos hp']
      · simp only [alookup]
        rw [if_neg hp', if_neg hp']
        exact ih

theorem alookup_dictInsert_self {κ α : Type} [DecidableEq κ]
    (d : List (κ × α)) (k : κ) (v : α) :
    alookup (dictInsert d k v) k = some v := by
  unfold dictInsert
  cases hany : d.any (fun p => p.1 = k) with
  | true =>
    rw [if_pos rfl]
    exact alookup_map_replace_self v hany
  | false =>
    rw [if_neg (by simp)]
    rw [alookup_append]
    have hnone : alookup d k = none := alookup_none_of_any_false hany
    simp [hnone, alookup]

theorem alookup_dictInsert_ne {κ α : Type} [DecidableEq κ]
    (d : List (κ × α)) (k k' : κ) (v : α) (h : k' ≠ k) :
    alookup (dictInsert d k v) k' = alookup d k' := by
  unfold dictInsert
  cases hany : d.any (fun p => p.1 = k) with
  | true =>
    rw [if_pos rfl]
    exact alookup_map_replace_ne d k k' v h
  | false =>
    rw [if_neg (by simp)]
    rw [alookup_append]
    cases hc : alookup d k' with
    | some v' => simp
    | none =>
      have hk : ¬(k : κ) = k' := fun hx => h hx.symm
      simp [alookup, hk]

/-! ### A generic dict-building fold and its characterisation

All four loops of `make_task_arguments`, `get_dag_output_parameters` and
`get_dag_output_artifacts` have the same shape: walk the descriptor map,
resolve each entry to a value (possibly raising) and insert it into the
accumulating dict.  `dictFoldM` is that common shape, defined by direct
recursion; each source-shaped `foldlM` is proved equal to it below. -/

def dictFoldM {σ : Type} (f : String × σ → Except DagError Value)
    (acc : List (String × Value)) :
    List (String × σ) → Except DagError (List (String × Value))
  | [] => .ok acc
  | p :: l =>
    match f p with
    | .error e => .error e
    | .ok v => dictFoldM f (dictInsert acc p.1 v) l

theorem foldlM_dict_eq {σ : Type} (f : String × σ → Except DagError Value)
    (l : List (String × σ)) (acc : List (String × Value)) :
    l.foldlM (fun acc p => do
        let v ← f p
        pure (dictInsert acc p.1 v)) acc = dictFoldM f acc l := by
  induction l generalizing acc with
  | nil => rfl
  | cons p rest ih =>
    have h1 : List.foldlM (fun acc p => do
        let v ← f p
        pure (dictInsert acc p.1 v)) acc (p :: rest) =
        ((do
          let v ← f p
          pure (dictInsert acc p.1 v)) >>= fun a =>
            List.foldlM (fun acc p => do
              let v ← f p
              pure (dictInsert acc p.1 v)) a rest) := rfl
    rw [h1]
    simp only [dictFoldM]
    cases hfp : f p with
    | error e => rfl
    | ok v => exact ih (dictInsert acc p.1 v)

theorem dictFoldM_ok_of_mem {σ : Type}
    {f : String × σ → Except DagError Value} {l : List (String × σ)}
    {acc out : List (String × Value)} {n : String} {s : σ}
    (h : dictFoldM f acc l = .ok out) (hmem : (n, s) ∈ l) :
    ∃ v, f (n, s) = .ok v := by
  induction l generalizing acc with
  | nil => cases hmem
  | cons p rest ih =>
    rcases List.mem_cons.mp hmem with heq | hmem'
    · subst heq
      cases hfp : f (n, s) with
      | error e => simp [dictFoldM, hfp] at h
      | ok v => exact ⟨v, rfl⟩
    · cases hfp : f p with
      | error e => simp [dictFoldM, hfp] at h
      | ok v =>
        simp only [dictFoldM, hfp] at h
        exact ih h hmem'

theorem dictFoldM_lookup_not_mem {σ : Type}
    {f : String × σ → Except DagError Value} {l : List (String × σ)}
    {acc out : List (String × Value)} {n : String}
    (h : dictFoldM f acc l = .ok out) (hn : n ∉ l.map Prod.fst) :
    alookup out n = alookup acc n := by
  induction l generalizing acc with
  | nil =>
    simp only [dictFoldM] at h
    cases h
    rfl
  | cons p rest ih =>
    simp only [List.map_cons, List.mem_cons, not_or] at hn
    cases hfp : f p with
    | error e => simp [dictFoldM, hfp] at h
    | ok v =>
      simp only [dictFoldM, hfp] at h
      rw [ih h hn.2, alookup_dictInsert_ne _ _ _ _ hn.1]

theorem dictFoldM_lookup_mem {σ : Type}
    {f : String × σ → Except DagError Value} {l : List (String × σ)}
    {acc out : List (String × Value)} {n : String} {s : σ}
    (hnd : (l.map Prod.fst).Nodup)
    (h : dictFoldM f acc l = .ok out) (hmem : (n, s) ∈ l) :
    ∃ v, f (n, s) = .ok v ∧ alookup out n = some v := by
  induction l generalizing acc with
  | nil => cases hmem
  | cons p rest ih =>
    simp only [List.map_cons, List.nodup_cons] at hnd
    rcases List.mem_cons.mp hmem with heq | hmem'
    · subst heq
      cases hfp : f (n, s) with
      | error e => simp [dictFoldM, hfp] at h
      | ok v =>
        simp only [dictFoldM, hfp] at h
        refine ⟨v, rfl, ?_⟩
        rw [dictFoldM_lookup_not_mem h hnd.1]
        exact alookup_dictInsert_self acc n v
    · cases hfp : f p with
      | error e => simp [dictFoldM, hfp] at h
      | ok v =>
        simp only [dictFoldM, hfp] at h
        exact ih hnd.2 h hmem'

theorem dictFoldM_append {σ : Type}
    (f : String × σ → Except DagError Value) (l1 l2 : List (String × σ))
    (acc : List (String × Value)) :
    dictFoldM f acc (l1 ++ l2) =
      match dictFoldM f acc l1 with
      | .error e => .error e
      | .ok mid => dictFoldM f mid l2 := by
  induction l1 generalizing acc with
  | nil => simp [dictFoldM]
  | cons p rest ih =>
    cases hfp : f p with
    | error e => simp [dictFoldM, hfp]
    | ok v => simp [dictFoldM, hfp, ih]

theorem dictFoldM_error_at {σ : Type}
    {f : String × σ → Except DagError Value} {pre : List (String × σ)}
    {acc mid : List (String × Value)} {n : String} {s : σ} {e : DagError}
    (hpre : dictFoldM f acc pre = .ok mid) (hf : f (n, s) = .error e)
    (post : List (String × σ)) :
    dictFoldM f acc (pre ++ (n, s) :: post) = .error e := by
  rw [dictFoldM_append, hpre]
  simp [dictFoldM, hf]

/-! ### Store-write lemmas -/

theorem get_task_output_put_self (st : IOStore) (t k : String) (v : Value) :
    (st.put_task_output t k v).get_task_output t k = .ok v := by
  simp [IOStore.put_task_output, IOStore.get_task_output, alookup]

theorem get_task_output_put_ne (st : IOStore) {t k t' k' : String} (v : Value)
    (h : (t', k') ≠ (t, k)) :
    (st.put_task_output t k v).get_task_output t' k' =
      st.get_task_output t' k' := by
  have hne : ¬((t, k) : String × String) = (t', k') := fun hx => h hx.symm
  simp [IOStore.put_task_output, IOStore.get_task_output, alookup, hne]

theorem write_task_outputs_get_not_mem {outs : List (String × Value)}
    (st : IOStore) (t k : String) (h : k ∉ outs.map Prod.fst) :
    (write_task_outputs st t outs).get_task_output t k =
      st.get_task_output t k := by
  induction outs generalizing st with
  | nil => rfl
  | cons p rest ih =>
    simp only [List.map_cons, List.mem_cons, not_or] at h
    show (write_task_outputs (st.put_task_output t p.1 p.2) t rest).get_task_output t k = _
    rw [ih (st.put_task_output t p.1 p.2) h.2]
    exact get_task_output_put_ne st p.2 (by simp [fun hx : k = p.1 => h.1 hx])

theorem write_task_outputs_get_other (outs : List (String × Value))
    (st : IOStore) {t t' : String} (k' : String) (h : t' ≠ t) :
    (write_task_outputs st t outs).get_task_output t' k' =
      st.get_task_output t' k' := by
  induction outs generalizing st with
  | nil => rfl
  | cons p rest ih =>
    show (write_task_outputs (st.put_task_output t p.1 p.2) t rest).get_task_output t' k' = _
    rw [ih (st.put_task_output t p.1 p.2)]
    exact get_task_output_put_ne st p.2 (by simp [h])

theorem write_task_outputs_get_mem {outs : List (String × Value)}
    (st : IOStore) (t : String) {k : String} {v : Value}
    (hnd : (outs.map Prod.fst).Nodup) (hmem : (k, v) ∈ outs) :
    (write_task_outputs st t outs).get_task_output t k = .ok v := by
  induction outs generalizing st with
  | nil => cases hmem
  | cons p rest ih =>
    simp only [List.map_cons, List.nodup_cons] at hnd
    rcases List.mem_cons.mp hmem with heq | hmem'
    · subst heq
      show (write_task_outputs (st.put_task_output t k v) t rest).get_task_output t k = _
      rw [write_task_outputs_get_not_mem _ t k hnd.1]
      exact get_task_output_put_self st t k v
    · exact ih (st.put_task_output t p.1 p.2) hnd.2 hmem'

theorem write_task_outputs_shape (outs : List (String × Value)) (st : IOStore)
    (t : String) :
    (∃ new, (write_task_outputs st t outs).task_outputs =
      new ++ st.task_outputs) ∧
    (write_task_outputs st t outs).parent_inputs = st.parent_inputs := by
  induction outs generalizing st with
  | nil => exact ⟨⟨[], rfl⟩, rfl⟩
  | cons p rest ih =>
    have step := ih (st.put_task_output t p.1 p.2)
    rcases step.1 with ⟨new, hnew⟩
    refine ⟨⟨new ++ [((t, p.1), p.2)], ?_⟩, step.2⟩
    show (write_task_outputs (st.put_task_output t p.1 p.2) t rest).task_outputs = _
    rw [hnew]
    simp [IOStore.put_task_output]

/-! ### Loop lemmas for `run_tasks` -/

theorem run_tasks_nil (E : List (String × ExecutorSpec))
    (C : List (String × ComponentSpec)) (D : DagSpec) (R : TaskRunner)
    (st : IOStore) (acc : List String) :
    run_tasks E C D R [] st acc = .ok ⟨(.SUCCESS, none), st, acc⟩ := rfl

theorem run_tasks_cons_error {E : List (String × ExecutorSpec)}
    {C : List (String × ComponentSpec)} {D : DagSpec} {R : TaskRunner}
    {t : String} {st : IOStore} {e : DagError}
    (h : run_one_task E C D R t st = .error e) (rest : List String)
    (acc : List String) :
    run_tasks E C D R (t :: rest) st acc = .error e := by
  simp [run_tasks, h]

theorem run_tasks_cons_failure {E : List (String × ExecutorSpec)}
    {C : List (String × ComponentSpec)} {D : DagSpec} {R : TaskRunner}
    {t : String} {st : IOStore} {outs : List (String × Value)}
    (h : run_one_task E C D R t st = .ok (outs, .FAILURE))
    (rest : List String) (acc : List String) :
    run_tasks E C D R (t :: rest) st acc =
      .ok ⟨(.FAILURE, some t), st, acc ++ [t]⟩ := by
  simp [run_tasks, h]

theorem run_tasks_cons_success {E : List (String × ExecutorSpec)}
    {C : List (String × ComponentSpec)} {D : DagSpec} {R : TaskRunner}
    {t : String} {st : IOStore} {outs : List (String × Value)}
    (h : run_one_task E C D R t st = .ok (outs, .SUCCESS))
    (rest : List String) (acc : List String) :
    run_tasks E C D R (t :: rest) st acc =
      run_tasks E C D R rest (write_task_outputs st t outs) (acc ++ [t]) := by
  simp [run_tasks, h]

/-- If the loop completes with `SUCCESS`, no task failed: the failing-task
slot is `none` and every task of the list was dispatched, in list order. -/
theorem run_tasks_success_shape {E : List (String × ExecutorSpec)}
    {C : List (String × ComponentSpec)} {D : DagSpec} {R : TaskRunner}
    {l : List String} {st : IOStore} {acc : List String} {out : RunOutcome}
    (h : run_tasks E C D R l st acc = .ok out)
    (hs : out.result.1 = .SUCCESS) :
    out.result = (.SUCCESS, none) ∧ out.dispatched = acc ++ l := by
  induction l generalizing st acc with
  | nil =>
    rw [run_tasks_nil] at h
    cases h
    exact ⟨rfl, by simp⟩
  | cons t rest ih =>
    cases hone : run_one_task E C D R t st with
    | error e => rw [run_tasks_cons_error hone] at h; cases h
    | ok p =>
      rcases p with ⟨outs, status⟩
      cases status with
      | FAILURE =>
        rw [run_tasks_cons_failure hone] at h
        cases h
        cases hs
      | SUCCESS =>
        rw [run_tasks_cons_success hone] at h
        rcases ih h with ⟨h1, h2⟩
        exact ⟨h1, by simpa using h2⟩

/-- If the loop completes with `FAILURE`, the list splits as
`done ++ t :: rest`: the failing task `t` is named in the result, exactly
`done ++ [t]` was dispatched (nothing of `rest`), and the final store is
exactly the store the successful run of `done` alone produces — so the
failing task's outputs were never written and the prior tasks' writes are
kept as they were. -/
theorem run_tasks_failure_shape {E : List (String × ExecutorSpec)}
    {C : List (String × ComponentSpec)} {D : DagSpec} {R : TaskRunner}
    {l : List String} {st : IOStore} {acc : List String} {out : RunOutcome}
    (h : run_tasks E C D R l st acc = .ok out)
    (hf : out.result.1 = .FAILURE) :
    ∃ t done rest, l = done ++ t :: rest ∧ out.result = (.FAILURE, some t) ∧
      out.dispatched = acc ++ done ++ [t] ∧
      run_tasks E C D R done st acc =
        .ok ⟨(.SUCCESS, none), out.io_store, acc ++ done⟩ := by
  induction l generalizing st acc with
  | nil =>
    rw [run_tasks_nil] at h
    cases h
    cases hf
  | cons t rest ih =>
    cases hone : run_one_task E C D R t st with
    | error e => rw [run_tasks_cons_error hone] at h; cases h
    | ok p =>
      rcases p with ⟨outs, status⟩
      cases status with
      | FAILURE =>
        rw [run_tasks_cons_failure hone] at h
        cases h
        exact ⟨t, [], rest, by simp, rfl, by simp, by simp [run_tasks_nil]⟩
      | SUCCESS =>
        rw [run_tasks_cons_success hone] at h
        rcases ih h with ⟨t₁, done₁, rest₁, hsplit, hres, hdisp, hpre⟩
        refine ⟨t₁, t :: done₁, rest₁, by simp [hsplit], hres, ?_, ?_⟩
        · rw [hdisp]; simp
        · rw [run_tasks_cons_success hone, hpre]
          simp

/-- The loop only grows the store: task outputs are prepended, parent
inputs are untouched. -/
theorem run_tasks_store_monotone {E : List (String × ExecutorSpec)}
    {C : List (String × ComponentSpec)} {D : DagSpec} {R : TaskRunner}
    {l : List String} {st : IOStore} {acc : List String} {out : RunOutcome}
    (h : run_tasks E C D R l st acc = .ok out) :
    (∃ new, out.io_store.task_outputs = new ++ st.task_outputs) ∧
    out.io_store.parent_inputs = st.parent_inputs := by
  induction l generalizing st acc with
  | nil =>
    rw [run_tasks_nil] at h
    cases h
    exact ⟨⟨[], rfl⟩, rfl⟩
  | cons t rest ih =>
    cases hone : run_one_task E C D R t st with
    | error e => rw [run_tasks_cons_error hone] at h; cases h
    | ok p =>
      rcases p with ⟨outs, status⟩
      cases status with
      | FAILURE =>
        rw [run_tasks_cons_failure hone] at h
        cases h
        exact ⟨⟨[], rfl⟩, rfl⟩
      | SUCCESS =>
        rw [run_tasks_cons_success hone] at h
        rcases ih h with ⟨⟨new, hnew⟩, hpar⟩
        rcases write_task_outputs_shape outs st t with ⟨⟨new₂, hnew₂⟩, hpar₂⟩
        refine ⟨⟨new ++ new₂, ?_⟩, ?_⟩
        · rw [hnew, hnew₂, List.append_assoc]
        · rw [hpar, hpar₂]

/-- `run_dag` unfolded: the seeding prelude followed by the loop over the
reversed stack. -/
theorem run_dag_eq_run_tasks (d : ComponentSpec)
    (E : List (String × ExecutorSpec)) (C : List (String × ComponentSpec))
    (args : List (String × Value)) (st0 : IOStore) (R : TaskRunner)
    (topo : List (String × PipelineTaskSpec) → List String) :
    run_dag d E C args st0 R topo =
      run_tasks E C d.dag R (topo d.dag.tasks).reverse
        (dag_initial_store d args st0) [] := rfl

/-! ### Bridges from the source-shaped folds to `dictFoldM` -/

theorem fold_parameter_inputs_eq (st : IOStore)
    (l : List (String × InputParameterSpec)) (acc : List (String × Value)) :
    fold_parameter_inputs st l acc =
      dictFoldM (fun p => resolve_parameter_input st p.1 p.2) acc l :=
  foldlM_dict_eq (fun p => resolve_parameter_input st p.1 p.2) l acc

theorem fold_artifact_inputs_eq (st : IOStore)
    (l : List (String × InputArtifactSpec)) (acc : List (String × Value)) :
    fold_artifact_inputs st l acc =
      dictFoldM (fun p => resolve_artifact_input st p.1 p.2) acc l :=
  foldlM_dict_eq (fun p => resolve_artifact_input st p.1 p.2) l acc

/-- The per-entry resolution performed by the loop body of
`get_dag_output_parameters`, factored out of the fold. -/
def parameter_selector_value (st : IOStore)
    (p : String × ParameterSelectorSpec) : Except DagError Value :=
  match p.2 with
  | .value_from_parameter producer_subtask output_parameter_key =>
    st.get_task_output producer_subtask output_parameter_key
  | .value_from_oneof => .error (.unsupportedFeature "one_of")
  | .unset => .error .unknownParameterSelectorKind

theorem fold_output_parameters_eq (st : IOStore)
    (l : List (String × ParameterSelectorSpec)) (acc : List (String × Value)) :
    fold_output_parameters st l acc =
      dictFoldM (parameter_selector_value st) acc l := by
  have hstep : (fun (outputs : List (String × Value))
      (p : String × ParameterSelectorSpec) =>
        match p.2 with
        | .value_from_parameter producer_subtask output_parameter_key => do
          let v ← st.get_task_output producer_subtask output_parameter_key
          pure (dictInsert outputs p.1 v)
        | .value_from_oneof =>
          (.error (.unsupportedFeature "one_of") :
            Except DagError (List (String × Value)))
        | .unset => .error .unknownParameterSelectorKind) =
      (fun outputs p => do
        let v ← parameter_selector_value st p
        pure (dictInsert outputs p.1 v)) := by
    funext outputs p
    rcases p with ⟨n, sel⟩
    cases sel <;> rfl
  show l.foldlM _ acc = _
  rw [hstep]
  exact foldlM_dict_eq (parameter_selector_value st) l acc

/-- The per-entry resolution performed by the loop body of
`get_dag_output_artifacts`, factored out of the fold. -/
def artifact_selector_value (st : IOStore)
    (p : String × ArtifactSelectorSpec) : Except DagError Value :=
  match p.2.artifact_selectors with
  | [sel] => st.get_task_output sel.producer_subtask sel.output_artifact_key
  | sels => .error (.invalidOutputSpec sels.length)

theorem fold_output_artifacts_eq (st : IOStore)
    (l : List (String × ArtifactSelectorSpec)) (acc : List (String × Value)) :
    fold_output_artifacts st l acc =
      dictFoldM (artifact_selector_value st) acc l := by
  have hstep : (fun (outputs : List (String × Value))
      (p : String × ArtifactSelectorSpec) =>
        match p.2.artifact_selectors with
        | [sel] => do
          let v ← st.get_task_output sel.producer_subtask
            sel.output_artifact_key
          pure (dictInsert outputs p.1 v)
        | sels =>
          (.error (.invalidOutputSpec sels.length) :
            Except DagError (List (String × Value)))) =
      (fun outputs p => do
        let v ← artifact_selector_value st p
        pure (dictInsert outputs p.1 v)) := by
    funext outputs p
    show _ = (artifact_selector_value st p >>= fun v =>
      pure (dictInsert outputs p.1 v))
    unfold artifact_selector_value
    rcases p with ⟨n, ⟨sels⟩⟩
    match sels with
    | [] => rfl
    | [sel] => rfl
    | s1 :: s2 :: srest => rfl
  show l.foldlM _ acc = _
  rw [hstep]
  exact foldlM_dict_eq (artifact_selector_value st) l acc

/-- `make_task_arguments` as the two `dictFoldM` phases chained. -/
theorem make_task_arguments_eq (spec : TaskInputsSpec) (st : IOStore) :
    make_task_arguments spec st =
      match dictFoldM (fun p => resolve_parameter_input st p.1 p.2) []
          spec.parameters with
      | .error e => .error e
      | .ok mid =>
        dictFoldM (fun p => resolve_artifact_input st p.1 p.2) mid
          spec.artifacts := by
  unfold make_task_arguments
  rw [show fold_parameter_inputs st spec.parameters [] =
    dictFoldM (fun p => resolve_parameter_input st p.1 p.2) [] spec.parameters
    from fold_parameter_inputs_eq st spec.parameters []]
  cases dictFoldM (fun p => resolve_parameter_input st p.1 p.2) []
      spec.parameters with
  | error e => rfl
  | ok mid => exact fold_artifact_inputs_eq st spec.artifacts mid

/-! ### Characterisation of `make_task_arguments` -/

/-- Under globally distinct input names, a parameter input that
`make_task_arguments` accepted resolves to exactly
`resolve_parameter_input` of its descriptor, and that value is bound to its
name in the returned argument dict. -/
theorem make_task_arguments_parameter_mem {spec : TaskInputsSpec}
    {st : IOStore} {out : List (String × Value)} {n : String}
    {s : InputParameterSpec}
    (h : make_task_arguments spec st = .ok out)
    (hnd : (spec.parameters.map Prod.fst ++
      spec.artifacts.map Prod.fst).Nodup)
    (hmem : (n, s) ∈ spec.parameters) :
    ∃ v, resolve_parameter_input st n s = .ok v ∧ alookup out n = some v := by
  rw [make_task_arguments_eq] at h
  rcases List.nodup_append.mp hnd with ⟨hnd₁, hnd₂, hdisj⟩
  cases hp : dictFoldM (fun p => resolve_parameter_input st p.1 p.2) []
      spec.parameters with
  | error e => rw [hp] at h; cases h
  | ok mid =>
    rw [hp] at h
    rcases dictFoldM_lookup_mem hnd₁ hp hmem with ⟨v, hv, hmid⟩
    refine ⟨v, hv, ?_⟩
    have hn : n ∉ spec.artifacts.map Prod.fst := by
      intro hc
      exact hdisj (List.mem_map_of_mem Prod.fst hmem) hc
    rw [dictFoldM_lookup_not_mem h hn, hmid]

/-- Same, for artifact inputs. -/
theorem make_task_arguments_artifact_mem {spec : TaskInputsSpec}
    {st : IOStore} {out : List (String × Value)} {n : String}
    {s : InputArtifactSpec}
    (h : make_task_arguments spec st = .ok out)
    (hnd : (spec.parameters.map Prod.fst ++
      spec.artifacts.map Prod.fst).Nodup)
    (hmem : (n, s) ∈ spec.artifacts) :
    ∃ v, resolve_artifact_input st n s = .ok v ∧ alookup out n = some v := by
  rw [make_task_arguments_eq] at h
  rcases List.nodup_append.mp hnd with ⟨hnd₁, hnd₂, hdisj⟩
  cases hp : dictFoldM (fun p => resolve_parameter_input st p.1 p.2) []
      spec.parameters with
  | error e => rw [hp] at h; cases h
  | ok mid =>
    rw [hp] at h
    exact dictFoldM_lookup_mem hnd₂ h hmem

/-- If the parameter descriptors up to some entry all resolve and that entry
raises, `make_task_arguments` raises that entry's error. -/
theorem make_task_arguments_parameter_error {spec : TaskInputsSpec}
    {st : IOStore} {pre post : List (String × InputParameterSpec)}
    {n : String} {s : InputParameterSpec} {acc : List (String × Value)}
    {e : DagError}
    (hsplit : spec.parameters = pre ++ (n, s) :: post)
    (hpre : fold_parameter_inputs st pre [] = .ok acc)
    (herr : resolve_parameter_input st n s = .error e) :
    make_task_arguments spec st = .error e := by
  rw [make_task_arguments_eq, hsplit]
  rw [fold_parameter_inputs_eq] at hpre
  rw [dictFoldM_error_at hpre herr post]

/-- If every parameter descriptor resolves and the artifact descriptors up
to some entry resolve but that entry raises, `make_task_arguments` raises
that entry's error. -/
theorem make_task_arguments_artifact_error {spec : TaskInputsSpec}
    {st : IOStore} {args : List (String × Value)}
    {pre post : List (String × InputArtifactSpec)} {n : String}
    {s : InputArtifactSpec} {acc : List (String × Value)} {e : DagError}
    (hparams : fold_parameter_inputs st spec.parameters [] = .ok args)
    (hsplit : spec.artifacts = pre ++ (n, s) :: post)
    (hpre : fold_artifact_inputs st pre args = .ok acc)
    (herr : resolve_artifact_input st n s = .error e) :
    make_task_arguments spec st = .error e := by
  rw [make_task_arguments_eq, hsplit]
  rw [fold_parameter_inputs_eq] at hparams
  rw [hparams]
  rw [fold_artifact_inputs_eq] at hpre
  show dictFoldM (fun p => resolve_artifact_input st p.1 p.2) args
    (pre ++ (n, s) :: post) = .error e
  exact dictFoldM_error_at hpre herr post

/-! ### Characterisation of `join_user_inputs_and_defaults` -/

theorem join_fold_lookup (ps : List (String × ComponentInputParameterSpec))
    (copied : List (String × Value)) (k : String) :
    alookup (ps.foldl (fun copied p =>
      if (alookup copied p.1).isSome then copied
      else dictInsert copied p.1 (pb2_value_to_python p.2.default_value))
      copied) k =
    match alookup copied k with
    | some v => some v
    | none =>
      match alookup ps k with
      | some p => some (pb2_value_to_python p.default_value)
      | none => none := by
  induction ps generalizing copied with
  | nil =>
    simp only [List.foldl_nil, alookup]
    cases alookup copied k <;> rfl
  | cons q rest ih =>
    simp only [List.foldl_cons]
    cases hc : alookup copied q.1 with
    | some w =>
      rw [if_pos (by simp [hc])]
      rw [ih copied]
      by_cases hk : q.1 = k
      · subst hk
        rw [hc]
      · simp only [alookup, if_neg hk]
    | none =>
      rw [if_neg (by simp [hc])]
      rw [ih (dictInsert copied q.1 (pb2_value_to_python q.2.default_value))]
      by_cases hk : q.1 = k
      · subst hk
        rw [hc, alookup_dictInsert_self]
        simp [alookup]
      · rw [alookup_dictInsert_ne _ _ _ _ (fun hx => hk hx.symm)]
        simp only [alookup, if_neg hk]

theorem join_lookup (dag_arguments : List (String × Value))
    (dag_inputs_spec : ComponentInputsSpec) (k : String) :
    alookup (join_user_inputs_and_defaults dag_arguments dag_inputs_spec) k =
    match alookup dag_arguments k with
    | some v => some v
    | none =>
      match alookup dag_inputs_spec.parameters k with
      | some p => some (pb2_value_to_python p.default_value)
      | none => none :=
  join_fold_lookup dag_inputs_spec.parameters dag_arguments k

theorem join_extends (dag_arguments : List (String × Value))
    (dag_inputs_spec : ComponentInputsSpec) :
    ∃ extra, join_user_inputs_and_defaults dag_arguments dag_inputs_spec =
      dag_arguments ++ extra := by
  unfold join_user_inputs_and_defaults
  generalize dag_inputs_spec.parameters = ps
  induction ps generalizing dag_arguments with
  | nil => exact ⟨[], by simp⟩
  | cons q rest ih =>
    simp only [List.foldl_cons]
    cases hc : alookup dag_arguments q.1 with
    | some w =>
      rw [if_pos (by simp [hc])]
      exact ih dag_arguments
    | none =>
      rw [if_neg (by simp [hc])]
      rw [dictInsert_of_alookup_none _ hc]
      rcases ih (dag_arguments ++
        [(q.1, pb2_value_to_python q.2.default_value)]) with ⟨extra, hx⟩
      exact ⟨(q.1, pb2_value_to_python q.2.default_value) :: extra, by
        rw [hx, List.append_assoc]; rfl⟩

/-! ### `dictUnion` lookup -/

theorem alookup_dictUnion {α : Type} (d1 d2 : List (String × α))
    (hnd : (d2.map Prod.fst).Nodup) (k : String) :
    alookup (dictUnion d1 d2) k =
      match alookup d2 k with
      | some v => some v
      | none => alookup d1 k := by
  induction d2 generalizing d1 with
  | nil =>
    simp only [dictUnion, List.foldl_nil, alookup]
  | cons q rest ih =>
    simp only [List.map_cons, List.nodup_cons] at hnd
    have hstep : dictUnion d1 (q :: rest) =
        dictUnion (dictInsert d1 q.1 q.2) rest := rfl
    rw [hstep, ih (dictInsert d1 q.1 q.2) hnd.2]
    by_cases hk : q.1 = k
    · subst hk
      rw [alookup_eq_none_of_not_mem hnd.1, alookup_dictInsert_self]
      simp [alookup]
    · rw [alookup_dictInsert_ne _ _ _ _ (fun hx => hk hx.symm)]
      simp only [alookup, if_neg hk]

/-! ### A concrete two-task pipeline (spec section 8's scenario)

Task `A` produces output `x = 5`; task `B` consumes `A.x` as its input `y`
and produces `z = 10`; the DAG declares output `out = B.z`.  The
graph-ordering collaborator returns the stack `["B", "A"]`, whose pop-order
is `A` then `B`. -/

def exCompA : ComponentSpec := ⟨⟨[]⟩, .executor_label "execA"⟩

def exCompB : ComponentSpec := ⟨⟨[]⟩, .executor_label "execB"⟩

def exDagSpec : DagSpec :=
  ⟨[("A", ⟨"compA", ⟨[], []⟩⟩),
    ("B", ⟨"compB", ⟨[("y", .task_output_parameter "A" "x")], []⟩⟩)],
   ⟨[("out", .value_from_parameter "B" "z")], []⟩⟩

def exDagComp : ComponentSpec := ⟨⟨[]⟩, .dag exDagSpec⟩

def exExecutors : List (String × ExecutorSpec) :=
  [("execA", .container), ("execB", .container)]

def exComponents : List (String × ComponentSpec) :=
  [("compA", exCompA), ("compB", exCompB)]

def exRunner : TaskRunner := fun component_name _ =>
  if component_name = "compA" then ([("x", .vInt 5)], .SUCCESS)
  else ([("z", .vInt 10)], .SUCCESS)

def exFailRunner : TaskRunner := fun component_name _ =>
  if component_name = "compA" then ([], .FAILURE)
  else ([("z", .vInt 10)], .SUCCESS)

def exTopo : List (String × PipelineTaskSpec) → List String :=
  fun _ => ["B", "A"]

def exStore0 : IOStore := ⟨[], []⟩

def exSuccessOutcome : RunOutcome :=
  ⟨(.SUCCESS, none),
   ⟨[], [(("B", "z"), .vInt 10), (("A", "x"), .vInt 5)]⟩,
   ["A", "B"]⟩

def exFailOutcome : RunOutcome := ⟨(.FAILURE, some "A"), ⟨[], []⟩, ["A"]⟩

/-! ### Further concrete data used by witnesses -/

def exStoreC4 : IOStore :=
  ⟨[("pin", .vStr "pv"), ("ain", .vArtifact "art")],
   [(("T", "o"), .vInt 7), (("T", "ao"), .vArtifact "u")]⟩

def exInputsC4 : TaskInputsSpec :=
  ⟨[("a", .task_output_parameter "T" "o"),
    ("b", .component_input_parameter "pin"),
    ("c", .runtime_value (.constant (.pbInt 3)))],
   [("d", .task_output_artifact "T" "ao"),
    ("e", .component_input_artifact "ain")]⟩

def exInputsFinalStatus : TaskInputsSpec := ⟨[("f", .task_final_status)], []⟩

def exInputsNoSourceParam : TaskInputsSpec := ⟨[("g", .unset)], []⟩

def exInputsNoSourceArtifact : TaskInputsSpec := ⟨[], [("h", .unset)]⟩

def exInputsC10 : TaskInputsSpec :=
  ⟨[("r", .runtime_value (.runtime_parameter "p"))], []⟩

def exArgsC6 : List (String × Value) := [("u", .vInt 1)]

def exInputsSpecC6 : ComponentInputsSpec :=
  ⟨[("u", ⟨.pbInt 9⟩), ("d", ⟨.pbStr "dv"⟩)]⟩

/-! ## The claims -/

/-- Claim C6: `join_user_inputs_and_defaults` returns the user map extended
in place — every user-supplied key keeps the user's value (user values win
over declared defaults), every declared parameter input absent from the user
map appears filled from its declared default converted by
`pb2_value_to_python`, and the result is the unmodified original user map
followed by the added defaults (the source deep-copies, the embedding is
pure, so the caller's map is untouched). -/
theorem C6_join_user_inputs_and_defaults_spec
    (dag_arguments : List (String × Value))
    (dag_inputs_spec : ComponentInputsSpec) :
    (∃ extra, join_user_inputs_and_defaults dag_arguments dag_inputs_spec =
      dag_arguments ++ extra) ∧
    (∀ k v, alookup dag_arguments k = some v →
      alookup (join_user_inputs_and_defaults dag_arguments dag_inputs_spec) k
        = some v) ∧
    (∀ k ps, alookup dag_inputs_spec.parameters k = some ps →
      alookup dag_arguments k = none →
      alookup (join_user_inputs_and_defaults dag_arguments dag_inputs_spec) k
        = some (pb2_value_to_python ps.default_value)) := by
  refine ⟨join_extends dag_arguments dag_inputs_spec, ?_, ?_⟩
  · intro k v hv
    rw [join_lookup, hv]
  · intro k ps hps hnone
    rw [join_lookup, hnone, hps]

/-- Witness for C6 on concrete data: the user binding `u = 1` survives (its
declared default `9` is ignored) and the missing declared input `d` is
filled from its default. -/
theorem C6_join_user_inputs_and_defaults_spec_witness :
    (∃ extra, join_user_inputs_and_defaults exArgsC6 exInputsSpecC6 =
      exArgsC6 ++ extra) ∧
    alookup (join_user_inputs_and_defaults exArgsC6 exInputsSpecC6) "u" =
      some (.vInt 1) ∧
    alookup (join_user_inputs_and_defaults exArgsC6 exInputsSpecC6) "d" =
      some (.vStr "dv") :=
  ⟨(C6_join_user_inputs_and_defaults_spec exArgsC6 exInputsSpecC6).1,
   (C6_join_user_inputs_and_defaults_spec exArgsC6 exInputsSpecC6).2.1
     "u" (.vInt 1) rfl,
   (C6_join_user_inputs_and_defaults_spec exArgsC6 exInputsSpecC6).2.2
     "d" ⟨.pbStr "dv"⟩ rfl rfl⟩

/-- Claim C7: `validate_executor` returns normally exactly for
container-kind executors; importer-kind executors raise the
unsupported-feature (importer) error, and every other kind — another set
arm or an unset oneof — raises the invalid-executor-spec error. -/
theorem C7_validate_executor_container_only :
    (∀ e, validate_executor e = .ok () ↔ e = .container) ∧
    validate_executor .importer = .error (.unsupportedFeature "importer") ∧
    (∀ e, e ≠ .container → e ≠ .importer →
      validate_executor e = .error .invalidExecutorSpec) := by
  refine ⟨?_, rfl, ?_⟩
  · intro e
    cases e <;> simp [validate_executor]
  · intro e h1 h2
    cases e with
    | container => exact absurd rfl h1
    | importer => exact absurd rfl h2
    | other s => rfl
    | unset => rfl

/-- Witness for C7: a container executor passes and both an unrecognised
set arm and an unset oneof are rejected as invalid. -/
theorem C7_validate_executor_container_only_witness :
    validate_executor .container = .ok () ∧
    validate_executor (.other "custom") = .error .invalidExecutorSpec ∧
    validate_executor .unset = .error .invalidExecutorSpec :=
  ⟨(C7_validate_executor_container_only.1 .container).mpr rfl,
   C7_validate_executor_container_only.2.2 (.other "custom")
     (by decide) (by decide),
   C7_validate_executor_container_only.2.2 .unset (by decide) (by decide)⟩

/-- Claim C10: a parameter input whose oneof arm is `runtime_value` is
accepted only when the runtime value's own variant is `constant`: any other
variant makes `make_task_arguments` raise `ValueError('Expected
constant.')` (provided the inputs before it resolved), instead of treating
the input as a constant literal. -/
theorem C10_runtime_value_non_constant_rejected (spec : TaskInputsSpec)
    (st : IOStore) (pre post : List (String × InputParameterSpec))
    (n : String) (rv : RuntimeValueSpec) (acc : List (String × Value))
    (hsplit : spec.parameters = pre ++ (n, .runtime_value rv) :: post)
    (hnc : ∀ c, rv ≠ .constant c)
    (hpre : fold_parameter_inputs st pre [] = .ok acc) :
    make_task_arguments spec st = .error .expectedConstant := by
  have herr : resolve_parameter_input st n (.runtime_value rv) =
      .error .expectedConstant := by
    cases rv with
    | constant c => exact absurd rfl (hnc c)
    | runtime_parameter s => rfl
    | unset => rfl
  exact make_task_arguments_parameter_error hsplit hpre herr

/-- Witness for C10: an input whose runtime value is a runtime-parameter
reference (not a constant) is rejected with the expected-constant error. -/
theorem C10_runtime_value_non_constant_rejected_witness :
    make_task_arguments exInputsC10 exStore0 = .error .expectedConstant :=
  C10_runtime_value_non_constant_rejected exInputsC10 exStore0 [] [] "r"
    (.runtime_parameter "p") []
    rfl (fun _ h => RuntimeValueSpec.noConfusion h) rfl

/-- Claim C4: `make_task_arguments` resolves every input by its source tag.
With globally distinct input names: an upstream-output-tagged input
(parameter or artifact) is bound to exactly the value the store holds for
its `(producerTask, outputKey)`; a parent-input-tagged input (parameter or
artifact) is bound to exactly the stored parent input for its name; a
final-status-tagged parameter input raises the unsupported-feature
(task-final-status) error; and a parameter or artifact input with none of
the recognised source tags raises the missing-input error naming the
input (the error cases assume the inputs iterated before the offending one
resolved). -/
theorem C4_make_task_arguments_source_tags :
    (∀ (spec : TaskInputsSpec) (st : IOStore) (out : List (String × Value))
        (n p k : String),
      make_task_arguments spec st = .ok out →
      (spec.parameters.map Prod.fst ++ spec.artifacts.map Prod.fst).Nodup →
      (n, .task_output_parameter p k) ∈ spec.parameters →
      ∃ v, st.get_task_output p k = .ok v ∧ alookup out n = some v) ∧
    (∀ (spec : TaskInputsSpec) (st : IOStore) (out : List (String × Value))
        (n p k : String),
      make_task_arguments spec st = .ok out →
      (spec.parameters.map Prod.fst ++ spec.artifacts.map Prod.fst).Nodup →
      (n, .task_output_artifact p k) ∈ spec.artifacts →
      ∃ v, st.get_task_output p k = .ok v ∧ alookup out n = some v) ∧
    (∀ (spec : TaskInputsSpec) (st : IOStore) (out : List (String × Value))
        (n nm : String),
      make_task_arguments spec st = .ok out →
      (spec.parameters.map Prod.fst ++ spec.artifacts.map Prod.fst).Nodup →
      (n, .component_input_parameter nm) ∈ spec.parameters →
      ∃ v, st.get_parent_input nm = .ok v ∧ alookup out n = some v) ∧
    (∀ (spec : TaskInputsSpec) (st : IOStore) (out : List (String × Value))
        (n nm : String),
      make_task_arguments spec st = .ok out →
      (spec.parameters.map Prod.fst ++ spec.artifacts.map Prod.fst).Nodup →
      (n, .component_input_artifact nm) ∈ spec.artifacts →
      ∃ v, st.get_parent_input nm = .ok v ∧ alookup out n = some v) ∧
    (∀ (spec : TaskInputsSpec) (st : IOStore)
        (pre post : List (String × InputParameterSpec)) (n : String)
        (acc : List (String × Value)),
      spec.parameters = pre ++ (n, .task_final_status) :: post →
      fold_parameter_inputs st pre [] = .ok acc →
      make_task_arguments spec st =
        .error (.unsupportedFeature "task_final_status")) ∧
    (∀ (spec : TaskInputsSpec) (st : IOStore)
        (pre post : List (String × InputParameterSpec)) (n : String)
        (acc : List (String × Value)),
      spec.parameters = pre ++ (n, .unset) :: post →
      fold_parameter_inputs st pre [] = .ok acc →
      make_task_arguments spec st =
        .error (.missingInputSource "parameter" n)) ∧
    (∀ (spec : TaskInputsSpec) (st : IOStore) (args : List (String × Value))
        (pre post : List (String × InputArtifactSpec)) (n : String)
        (acc : List (String × Value)),
      fold_parameter_inputs st spec.parameters [] = .ok args →
      spec.artifacts = pre ++ (n, .unset) :: post →
      fold_artifact_inputs st pre args = .ok acc →
      make_task_arguments spec st =
        .error (.missingInputSource "artifact" n)) := by
  refine ⟨?_, ?_, ?_, ?_, ?_, ?_, ?_⟩
  · intro spec st out n p k h hnd hmem
    exact make_task_arguments_parameter_mem h hnd hmem
  · intro spec st out n p k h hnd hmem
    exact make_task_arguments_artifact_mem h hnd hmem
  · intro spec st out n nm h hnd hmem
    exact make_task_arguments_parameter_mem h hnd hmem
  · intro spec st out n nm h hnd hmem
    exact make_task_arguments_artifact_mem h hnd hmem
  · intro spec st pre post n acc hsplit hpre
    exact make_task_arguments_parameter_error hsplit hpre rfl
  · intro spec st pre post n acc hsplit hpre
    exact make_task_arguments_parameter_error hsplit hpre rfl
  · intro spec st args pre post n acc hparams hsplit hpre
    exact make_task_arguments_artifact_error hparams hsplit hpre rfl

/-- Witness for C4 on concrete data: a five-input task (upstream parameter,
parent parameter, constant, upstream artifact, parent artifact) resolves
each input from its tag's source, and the three source-error shapes raise
the errors C4 names. -/
theorem C4_make_task_arguments_source_tags_witness :
    (∃ v, exStoreC4.get_task_output "T" "o" = .ok v ∧
      alookup [("a", Value.vInt 7), ("b", Value.vStr "pv"),
        ("c", Value.vInt 3), ("d", Value.vArtifact "u"),
        ("e", Value.vArtifact "art")] "a" = some v) ∧
    (∃ v, exStoreC4.get_task_output "T" "ao" = .ok v ∧
      alookup [("a", Value.vInt 7), ("b", Value.vStr "pv"),
        ("c", Value.vInt 3), ("d", Value.vArtifact "u"),
        ("e", Value.vArtifact "art")] "d" = some v) ∧
    (∃ v, exStoreC4.get_parent_input "pin" = .ok v ∧
      alookup [("a", Value.vInt 7), ("b", Value.vStr "pv"),
        ("c", Value.vInt 3), ("d", Value.vArtifact "u"),
        ("e", Value.vArtifact "art")] "b" = some v) ∧
    (∃ v, exStoreC4.get_parent_input "ain" = .ok v ∧
      alookup [("a", Value.vInt 7), ("b", Value.vStr "pv"),
        ("c", Value.vInt 3), ("d", Value.vArtifact "u"),
        ("e", Value.vArtifact "art")] "e" = some v) ∧
    make_task_arguments exInputsFinalStatus exStore0 =
      .error (.unsupportedFeature "task_final_status") ∧
    make_task_arguments exInputsNoSourceParam exStore0 =
      .error (.missingInputSource "parameter" "g") ∧
    make_task_arguments exInputsNoSourceArtifact exStore0 =
      .error (.missingInputSource "artifact" "h") :=
  ⟨C4_make_task_arguments_source_tags.1 exInputsC4 exStoreC4 _ "a" "T" "o"
     rfl (by decide) (by decide),
   C4_make_task_arguments_source_tags.2.1 exInputsC4 exStoreC4 _ "d" "T" "ao"
     rfl (by decide) (by decide),
   C4_make_task_arguments_source_tags.2.2.1 exInputsC4 exStoreC4 _ "b" "pin"
     rfl (by decide) (by decide),
   C4_make_task_arguments_source_tags.2.2.2.1 exInputsC4 exStoreC4 _ "e" "ain"
     rfl (by decide) (by decide),
   C4_make_task_arguments_source_tags.2.2.2.2.1 exInputsFinalStatus exStore0
     [] [] "f" [] rfl rfl,
   C4_make_task_arguments_source_tags.2.2.2.2.2.1 exInputsNoSourceParam
     exStore0 [] [] "g" [] rfl rfl,
   C4_make_task_arguments_source_tags.2.2.2.2.2.2 exInputsNoSourceArtifact
     exStore0 [] [] [] "h" [] rfl rfl rfl⟩

/-- Claim C5: a constant-tagged (`runtime_value`/`constant`) parameter input
resolves to the decoded literal and its resolved value does not depend on
the value store: for any two stores under which `make_task_arguments`
completes, the input's resolved value is `pb2_value_to_python` of the
literal both times — so no store lookup can have influenced it. -/
theorem C5_constant_input_store_independent (spec : TaskInputsSpec)
    (n : String) (c : PbValue) (st₁ st₂ : IOStore)
    (out₁ out₂ : List (String × Value))
    (h₁ : make_task_arguments spec st₁ = .ok out₁)
    (h₂ : make_task_arguments spec st₂ = .ok out₂)
    (hnd : (spec.parameters.map Prod.fst ++
      spec.artifacts.map Prod.fst).Nodup)
    (hmem : (n, .runtime_value (.constant c)) ∈ spec.parameters) :
    alookup out₁ n = some (pb2_value_to_python c) ∧
    alookup out₂ n = some (pb2_value_to_python c) ∧
    alookup out₁ n = alookup out₂ n := by
  rcases make_task_arguments_parameter_mem h₁ hnd hmem with ⟨v₁, hv₁, hl₁⟩
  rcases make_task_arguments_parameter_mem h₂ hnd hmem with ⟨v₂, hv₂, hl₂⟩
  have e₁ : v₁ = pb2_value_to_python c := by
    have : Except.ok (ε := DagError) (pb2_value_to_python c) = .ok v₁ := hv₁
    exact (Except.ok.inj this).symm
  have e₂ : v₂ = pb2_value_to_python c := by
    have : Except.ok (ε := DagError) (pb2_value_to_python c) = .ok v₂ := hv₂
    exact (Except.ok.inj this).symm
  subst e₁; subst e₂
  exact ⟨hl₁, hl₂, hl₁.trans hl₂.symm⟩

/-- Witness for C5: the constant input `c = 3` of the concrete task resolves
to `vInt 3` under two different stores (a populated one and the empty one
extended so resolution still succeeds). -/
theorem C5_constant_input_store_independent_witness :
    alookup [("a", Value.vInt 7), ("b", Value.vStr "pv"),
      ("c", Value.vInt 3), ("d", Value.vArtifact "u"),
      ("e", Value.vArtifact "art")] "c" = some (Value.vInt 3) ∧
    alookup [("a", Value.vInt 70), ("b", Value.vStr "pv2"),
      ("c", Value.vInt 3), ("d", Value.vArtifact "u2"),
      ("e", Value.vArtifact "art2")] "c" = some (Value.vInt 3) ∧
    alookup [("a", Value.vInt 7), ("b", Value.vStr "pv"),
      ("c", Value.vInt 3), ("d", Value.vArtifact "u"),
      ("e", Value.vArtifact "art")] "c" =
    alookup [("a", Value.vInt 70), ("b", Value.vStr "pv2"),
      ("c", Value.vInt 3), ("d", Value.vArtifact "u2"),
      ("e", Value.vArtifact "art2")] "c" :=
  C5_constant_input_store_independent exInputsC4 "c" (.pbInt 3) exStoreC4
    ⟨[("pin", .vStr "pv2"), ("ain", .vArtifact "art2")],
     [(("T", "o"), .vInt 70), (("T", "ao"), .vArtifact "u2")]⟩
    _ _ rfl rfl (by decide) (by decide)

/-- Claim C1: if a `run_dag` run completes (no exception) with a `FAILURE`
result, then some dispatched task `t` reported `FAILURE` and the run
aborted right there: the result names `t`, the task list the loop iterates
splits as `done ++ t :: rest` with exactly `done ++ [t]` dispatched (no
task after `t` in iteration order is ever dispatched), the final store is
exactly the store the successful prefix `done` alone produces — so none of
`t`'s returned outputs were written — and every task-output entry present
in the seeded store is still there, unchanged and un-rolled-back, in the
final store. -/
theorem C1_run_dag_failure_fail_fast (d : ComponentSpec)
    (E : List (String × ExecutorSpec)) (C : List (String × ComponentSpec))
    (args : List (String × Value)) (st0 : IOStore) (R : TaskRunner)
    (topo : List (String × PipelineTaskSpec) → List String)
    (out : RunOutcome)
    (h : run_dag d E C args st0 R topo = .ok out)
    (hf : out.result.1 = .FAILURE) :
    ∃ t done rest,
      out.result = (.FAILURE, some t) ∧
      (topo d.dag.tasks).reverse = done ++ t :: rest ∧
      out.dispatched = done ++ [t] ∧
      run_tasks E C d.dag R done (dag_initial_store d args st0) [] =
        .ok ⟨(.SUCCESS, none), out.io_store, done⟩ ∧
      ∃ new, out.io_store.task_outputs =
        new ++ (dag_initial_store d args st0).task_outputs := by
  rw [run_dag_eq_run_tasks] at h
  rcases run_tasks_failure_shape h hf with
    ⟨t, done, rest, hsplit, hres, hdisp, hpre⟩
  have hmono := run_tasks_store_monotone hpre
  exact ⟨t, done, rest, hres, hsplit, hdisp, hpre, hmono.1⟩

/-- Witness for C1: in the concrete two-task pipeline with a runner that
fails task `A`, the run returns `(FAILURE, "A")`, only `A` was dispatched
(`B` never runs) and the store is exactly the seeded store. -/
theorem C1_run_dag_failure_fail_fast_witness :
    ∃ t done rest,
      exFailOutcome.result = (.FAILURE, some t) ∧
      (exTopo exDagComp.dag.tasks).reverse = done ++ t :: rest ∧
      exFailOutcome.dispatched = done ++ [t] ∧
      run_tasks exExecutors exComponents exDagComp.dag exFailRunner done
        (dag_initial_store exDagComp [] exStore0) [] =
        .ok ⟨(.SUCCESS, none), exFailOutcome.io_store, done⟩ ∧
      ∃ new, exFailOutcome.io_store.task_outputs =
        new ++ (dag_initial_store exDagComp [] exStore0).task_outputs :=
  C1_run_dag_failure_fail_fast exDagComp exExecutors exComponents []
    exStore0 exFailRunner exTopo exFailOutcome rfl rfl

/-- Claim C2: when every dispatched task reports `SUCCESS` — i.e. the run
completes with a `SUCCESS` result — `run_dag` returns `(SUCCESS, None)` and
dispatched the whole iterated task list; and after each successful
dispatch, every `(outputKey, value)` pair the runner returned is written
into the store keyed `(taskName, outputKey)` before the loop proceeds to
the remaining tasks. -/
theorem C2_run_dag_success_and_writes :
    (∀ (d : ComponentSpec) (E : List (String × ExecutorSpec))
        (C : List (String × ComponentSpec)) (args : List (String × Value))
        (st0 : IOStore) (R : TaskRunner)
        (topo : List (String × PipelineTaskSpec) → List String)
        (out : RunOutcome),
      run_dag d E C args st0 R topo = .ok out →
      out.result.1 = .SUCCESS →
      out.result = (.SUCCESS, none) ∧
      out.dispatched = (topo d.dag.tasks).reverse) ∧
    (∀ (E : List (String × ExecutorSpec)) (C : List (String × ComponentSpec))
        (D : DagSpec) (R : TaskRunner) (t : String) (rest : List String)
        (st : IOStore) (acc : List String) (outs : List (String × Value)),
      run_one_task E C D R t st = .ok (outs, .SUCCESS) →
      (run_tasks E C D R (t :: rest) st acc =
        run_tasks E C D R rest (write_task_outputs st t outs) (acc ++ [t])) ∧
      ((outs.map Prod.fst).Nodup → ∀ k v, (k, v) ∈ outs →
        (write_task_outputs st t outs).get_task_output t k = .ok v)) := by
  constructor
  · intro d E C args st0 R topo out h hs
    rw [run_dag_eq_run_tasks] at h
    rcases run_tasks_success_shape h hs with ⟨h1, h2⟩
    exact ⟨h1, h2⟩
  · intro E C D R t rest st acc outs hone
    exact ⟨run_tasks_cons_success hone rest acc,
      fun hnd k v hmem => write_task_outputs_get_mem st t hnd hmem⟩

/-- Witness for C2: the concrete two-task pipeline with an all-succeeding
runner returns `(SUCCESS, None)` having dispatched `A` then `B`; after
`A`'s dispatch its output `x = 5` is in the store, keyed `("A", "x")`,
before `B` is processed. -/
theorem C2_run_dag_success_and_writes_witness :
    (exSuccessOutcome.result = (.SUCCESS, none) ∧
      exSuccessOutcome.dispatched = (exTopo exDagComp.dag.tasks).reverse) ∧
    (run_tasks exExecutors exComponents exDagSpec exRunner ["A", "B"]
        exStore0 [] =
      run_tasks exExecutors exComponents exDagSpec exRunner ["B"]
        (write_task_outputs exStore0 "A" [("x", .vInt 5)]) ["A"]) ∧
    (write_task_outputs exStore0 "A" [("x", .vInt 5)]).get_task_output
      "A" "x" = .ok (.vInt 5) :=
  ⟨C2_run_dag_success_and_writes.1 exDagComp exExecutors exComponents []
     exStore0 exRunner exTopo exSuccessOutcome rfl rfl,
   (C2_run_dag_success_and_writes.2 exExecutors exComponents exDagSpec
     exRunner "A" ["B"] exStore0 [] [("x", .vInt 5)] rfl).1,
   (C2_run_dag_success_and_writes.2 exExecutors exComponents exDagSpec
     exRunner "A" ["B"] exStore0 [] [("x", .vInt 5)] rfl).2
     (by decide) "x" (.vInt 5) (by decide)⟩

/-- Counterexample to claim C3 as stated: `run_dag` does NOT dispatch in
the order of the sequence returned by the graph-ordering collaborator,
first element first.  The loop pops from the END of the returned list, so
with the collaborator returning the stack `["B", "A"]` the dispatch
sequence is `["A", "B"]` — not `["B", "A"]`. -/
theorem C3_counterexample :
    exTopo exDagComp.dag.tasks = ["B", "A"] ∧
    run_dag exDagComp exExecutors exComponents [] exStore0 exRunner exTopo =
      .ok exSuccessOutcome ∧
    exSuccessOutcome.dispatched = ["A", "B"] ∧
    exSuccessOutcome.dispatched ≠ exTopo exDagComp.dag.tasks :=
  ⟨rfl, rfl, rfl, by decide⟩

/-- Claim C3 (amended): `run_dag` treats the returned sequence as a stack
and dispatches in exactly its REVERSE order — the dispatched sequence of a
completed run is always an initial segment of the reversed returned
sequence, and on success it is the whole reversed sequence.  (So every task
is dispatched after its producers exactly when the collaborator returns the
reverse of a dependency-respecting order, which is its contract as a
stack.) -/
theorem C3_run_dag_dispatches_reverse (d : ComponentSpec)
    (E : List (String × ExecutorSpec)) (C : List (String × ComponentSpec))
    (args : List (String × Value)) (st0 : IOStore) (R : TaskRunner)
    (topo : List (String × PipelineTaskSpec) → List String)
    (out : RunOutcome)
    (h : run_dag d E C args st0 R topo = .ok out) :
    (∃ rest, (topo d.dag.tasks).reverse = out.dispatched ++ rest) ∧
    (out.result.1 = .SUCCESS →
      out.dispatched = (topo d.dag.tasks).reverse) := by
  rw [run_dag_eq_run_tasks] at h
  cases hst : out.result.1 with
  | SUCCESS =>
    rcases run_tasks_success_shape h hst with ⟨h1, h2⟩
    exact ⟨⟨[], by simp [h2]⟩, fun _ => h2⟩
  | FAILURE =>
    rcases run_tasks_failure_shape h hst with
      ⟨t, done, rest, hsplit, hres, hdisp, hpre⟩
    constructor
    · refine ⟨rest, ?_⟩
      rw [hsplit, hdisp]
      simp
    · intro hs
      exact Status.noConfusion hs

/-- Witness for C3's amended theorem, on the concrete successful run: the
dispatched sequence `["A", "B"]` is exactly the reverse of the returned
stack `["B", "A"]`. -/
theorem C3_run_dag_dispatches_reverse_witness :
    (∃ rest, (exTopo exDagComp.dag.tasks).reverse =
      exSuccessOutcome.dispatched ++ rest) ∧
    (exSuccessOutcome.result.1 = .SUCCESS →
      exSuccessOutcome.dispatched = (exTopo exDagComp.dag.tasks).reverse) :=
  C3_run_dag_dispatches_reverse exDagComp exExecutors exComponents []
    exStore0 exRunner exTopo exSuccessOutcome rfl

def exOutputsSpec : DagOutputsSpec :=
  ⟨[("o", .value_from_parameter "T" "o"),
    ("shared", .value_from_parameter "T" "o")],
   [("ao", ⟨[⟨"T", "ao"⟩]⟩), ("shared", ⟨[⟨"T", "ao"⟩]⟩)]⟩

def exOutputsOneOf : DagOutputsSpec := ⟨[("p", .value_from_oneof)], []⟩

def exOutputsTwoSel : DagOutputsSpec :=
  ⟨[], [("a2", ⟨[⟨"T", "ao"⟩, ⟨"T", "o"⟩]⟩)]⟩

/-- Claim C8: `get_dag_outputs` returns the Python dict-union of the
resolved parameter-output map and the resolved artifact-output map, with
the artifact map inserted second — so for every key bound in the artifact
map (in particular every key present in both maps) the artifact value
appears in the result, and a key bound only in the parameter map keeps its
parameter value. -/
theorem C8_get_dag_outputs_union_artifact_wins (spec : DagOutputsSpec)
    (st : IOStore) (P A : List (String × Value))
    (hP : get_dag_output_parameters spec st = .ok P)
    (hA : get_dag_output_artifacts spec st = .ok A) :
    get_dag_outputs spec st = .ok (dictUnion P A) ∧
    ((A.map Prod.fst).Nodup →
      (∀ k v, alookup A k = some v → alookup (dictUnion P A) k = some v) ∧
      (∀ k, alookup A k = none →
        alookup (dictUnion P A) k = alookup P k)) := by
  constructor
  · show (get_dag_output_parameters spec st >>= fun output_params =>
      get_dag_output_artifacts spec st >>= fun output_artifacts =>
      pure (dictUnion output_params output_artifacts)) = .ok (dictUnion P A)
    rw [hP, hA]
    rfl
  · intro hnd
    constructor
    · intro k v hv
      rw [alookup_dictUnion P A hnd k, hv]
    · intro k hv
      rw [alookup_dictUnion P A hnd k, hv]

/-- Witness for C8: a concrete outputs specification binding the key
`shared` both as a parameter output (value `7`) and as an artifact output
(value `vArtifact "u"`): the combined map holds the artifact value for
`shared` and the parameter value for the uncontested key `o`. -/
theorem C8_get_dag_outputs_union_artifact_wins_witness :
    get_dag_outputs exOutputsSpec exStoreC4 =
      .ok (dictUnion [("o", Value.vInt 7), ("shared", Value.vInt 7)]
        [("ao", Value.vArtifact "u"), ("shared", Value.vArtifact "u")]) ∧
    alookup (dictUnion [("o", Value.vInt 7), ("shared", Value.vInt 7)]
        [("ao", Value.vArtifact "u"), ("shared", Value.vArtifact "u")])
      "shared" = some (.vArtifact "u") ∧
    alookup (dictUnion [("o", Value.vInt 7), ("shared", Value.vInt 7)]
        [("ao", Value.vArtifact "u"), ("shared", Value.vArtifact "u")])
      "o" = some (.vInt 7) :=
  ⟨(C8_get_dag_outputs_union_artifact_wins exOutputsSpec exStoreC4 _ _
      rfl rfl).1,
   ((C8_get_dag_outputs_union_artifact_wins exOutputsSpec exStoreC4 _ _
      rfl rfl).2 (by decide)).1 "shared" (.vArtifact "u") rfl,
   (((C8_get_dag_outputs_union_artifact_wins exOutputsSpec exStoreC4 _ _
      rfl rfl).2 (by decide)).2 "o" rfl).trans rfl⟩

/-- Claim C9: during DAG output extraction, a declared parameter output
with a `value_from_oneof` selector makes `get_dag_output_parameters` raise
the unsupported-feature (one-of) error, a declared artifact output whose
selector list has length other than one makes `get_dag_output_artifacts`
raise the invalid-output-spec error reporting that length (both assuming
the outputs iterated before the offending one resolved), and an artifact
output with exactly one selector is resolved from the store exactly like a
parameter output: it is bound to the value the store holds for the
selector's `(producer_subtask, output_artifact_key)`. -/
theorem C9_dag_output_selector_errors :
    (∀ (spec : DagOutputsSpec) (st : IOStore)
        (pre post : List (String × ParameterSelectorSpec)) (k : String)
        (acc : List (String × Value)),
      spec.parameters = pre ++ (k, .value_from_oneof) :: post →
      fold_output_parameters st pre [] = .ok acc →
      get_dag_output_parameters spec st =
        .error (.unsupportedFeature "one_of")) ∧
    (∀ (spec : DagOutputsSpec) (st : IOStore)
        (pre post : List (String × ArtifactSelectorSpec)) (k : String)
        (sels : List ArtifactSelector) (acc : List (String × Value)),
      spec.artifacts = pre ++ (k, ⟨sels⟩) :: post →
      sels.length ≠ 1 →
      fold_output_artifacts st pre [] = .ok acc →
      get_dag_output_artifacts spec st =
        .error (.invalidOutputSpec sels.length)) ∧
    (∀ (spec : DagOutputsSpec) (st : IOStore) (A : List (String × Value))
        (k : String) (sel : ArtifactSelector),
      get_dag_output_artifacts spec st = .ok A →
      (spec.artifacts.map Prod.fst).Nodup →
      (k, ⟨[sel]⟩) ∈ spec.artifacts →
      ∃ v, st.get_task_output sel.producer_subtask sel.output_artifact_key =
        .ok v ∧ alookup A k = some v) := by
  refine ⟨?_, ?_, ?_⟩
  · intro spec st pre post k acc hsplit hpre
    show fold_output_parameters st spec.parameters [] = _
    rw [hsplit, fold_output_parameters_eq]
    rw [fold_output_parameters_eq] at hpre
    have herr : parameter_selector_value st (k, .value_from_oneof) =
        .error (.unsupportedFeature "one_of") := rfl
    exact dictFoldM_error_at hpre herr post
  · intro spec st pre post k sels acc hsplit hlen hpre
    have herr : artifact_selector_value st (k, ⟨sels⟩) =
        .error (.invalidOutputSpec sels.length) := by
      cases sels with
      | nil => rfl
      | cons s1 srest =>
        cases srest with
        | nil => exact absurd rfl hlen
        | cons s2 srest2 => rfl
    show fold_output_artifacts st spec.artifacts [] = _
    rw [hsplit, fold_output_artifacts_eq]
    rw [fold_output_artifacts_eq] at hpre
    exact dictFoldM_error_at hpre herr post
  · intro spec st A k sel h hnd hmem
    rw [show get_dag_output_artifacts spec st =
      fold_output_artifacts st spec.artifacts [] from rfl,
      fold_output_artifacts_eq] at h
    rcases dictFoldM_lookup_mem hnd h hmem with ⟨v, hv, hl⟩
    exact ⟨v, hv, hl⟩

/-- Witness for C9: a one-of parameter output is rejected, an artifact
output with two selectors is rejected reporting the count `2`, and the
single-selector artifact output `ao` of the concrete outputs specification
resolves to the stored `("T", "ao")` value. -/
theorem C9_dag_output_selector_errors_witness :
    get_dag_output_parameters exOutputsOneOf exStore0 =
      .error (.unsupportedFeature "one_of") ∧
    get_dag_output_artifacts exOutputsTwoSel exStore0 =
      .error (.invalidOutputSpec 2) ∧
    ∃ v, exStoreC4.get_task_output "T" "ao" = .ok v ∧
      alookup [("ao", Value.vArtifact "u"), ("shared", Value.vArtifact "u")]
        "ao" = some v :=
  ⟨C9_dag_output_selector_errors.1 exOutputsOneOf exStore0 [] [] "p" []
     rfl rfl,
   C9_dag_output_selector_errors.2.1 exOutputsTwoSel exStore0 [] [] "a2"
     [⟨"T", "ao"⟩, ⟨"T", "o"⟩] [] rfl (by decide) rfl,
   C9_dag_output_selector_errors.2.2 exOutputsSpec exStoreC4 _ "ao"
     ⟨"T", "ao"⟩ rfl (by decide) (by decide)⟩

end KFPLocal
